import Mathlib

/-!
Shallow embedding of the charging-session lifecycle and billing engine of the
IdeaAmp-API repository (app/services/chargingSessionService.py,
app/services/discountService.py, app/routes/websockets/charging.py,
app/routes/chargings/*).  Python floats are modelled as rationals, database
tables and the in-process active-session registry as association lists, and
each service method as a pure state-passing function.  Exceptions raised and
caught inside a method are modelled by the corresponding early-return branch of
that method; unrecoverable database faults are injected through an explicit
Faults record.
-/

namespace IdeaAmp

/-- ASCII lowercase of one character, as Python str.lower and SQL lower act on
the ASCII discount codes of this code base. -/
def lowerChar (c : Char) : Char :=
  if 65 ≤ c.toNat ∧ c.toNat ≤ 90 then Char.ofNat (c.toNat + 32) else c

/-- ASCII lowercase of a string, as the character list it denotes. -/
def lowerStr (s : String) : List Char := s.data.map lowerChar

/-- Status values of DiscountStatus (app/services/discountService.py lines 9-14). -/
inductive DiscountStatus where
  | SUCCESS
  | NOT_FOUND
  | EXPIRED
  | MAX_USES_REACHED
  | ERROR
deriving DecidableEq, Repr

/-- Row of the discounts table (app/models/discount.py): code, percentage value,
optional expiry timestamp (BigInteger, milliseconds), usage counter, optional
max uses. -/
structure Discount where
  id : Nat
  code : String
  value : ℚ
  expiry_on : Option Nat
  usage_count : Nat
  max_uses : Option Nat
deriving DecidableEq, Repr

/-- Row of the ports table (app/models/port.py). -/
structure Port where
  id : Nat
  station_id : Nat
  max_power : ℚ
  connector_type : String
  status : String
deriving DecidableEq, Repr

/-- Row of the stations table (app/models/station.py), restricted to the fields
read by the charging core. -/
structure Station where
  id : Nat
  price_per_kwh : ℚ
  status : String
deriving DecidableEq, Repr

/-- Row of the cars table (app/models/car.py), restricted to the fields read by
the charging core. -/
structure Car where
  id : Nat
  owner_id : Nat
  battery_capacity : ℚ
  max_charging_power : ℚ
deriving DecidableEq, Repr

/-- Row of the users table (app/models/user.py), restricted to balance and
loyalty points. -/
structure User where
  id : Nat
  balance : ℚ
  points : Int
deriving DecidableEq, Repr

/-- Row of the charging_sessions table (app/models/chargingSession.py and
ChargingSessionsService._get_columns).  end_on, energy_consumed, power_limit
and cost are nullable. -/
structure SessionRow where
  id : Nat
  user_id : Nat
  port_id : Nat
  car_id : Option Nat
  started_on : Nat
  end_on : Option Nat
  energy_consumed : Option ℚ
  power_limit : Option ℚ
  cost : Option ℚ
deriving DecidableEq, Repr

/-- One entry of ChargingSessionsService.active_sessions (the dict built in
initialize_charging, lines 255-268, and extended by start_charging and
update_charging_status).  Keys that the Python dict acquires only later
(car_id, target_kwh, estimated_cost, discount_code, last_points_kwh) are
Options whose none stands for the key being absent. -/
structure ActiveSession where
  session_id : Nat
  user_id : Nat
  port_id : Nat
  station_id : Nat
  max_power : ℚ
  price_per_kwh : ℚ
  connector_type : String
  charging_status : String
  started_on : Nat
  current_kwh : ℚ
  current_power : ℚ
  current_cost : ℚ
  car_id : Option Nat := none
  target_kwh : Option ℚ := none
  estimated_cost : Option ℚ := none
  discount_code : Option String := none
  last_points_kwh : Option ℚ := none
deriving DecidableEq, Repr

/-- Row of the transactions table as created by
TransactionService.create_transaction. -/
structure Transaction where
  id : Nat
  user_id : Nat
  station_id : Option Nat
  car_id : Option Nat
  amount : ℚ
  ttype : String
deriving DecidableEq, Repr

/-- Whole observable state: the relational store, the in-process registry of
active sessions, and a specification-only ledger of successful settlements
(pairs of session id and the reason resolved inside end_charging_session).
The settlements field does not exist in the code; it is a history variable
appended exactly when end_charging_session reaches its successful return. -/
structure World where
  ports : List Port
  stations : List Station
  cars : List Car
  users : List User
  discounts : List Discount
  session_rows : List SessionRow
  active_sessions : List (Nat × ActiveSession)
  transactions : List Transaction
  settlements : List (Nat × Option String)
  now : Nat
deriving DecidableEq, Repr

/-- Injected unrecoverable database faults: create_transaction raising,
UsersService.update_balance raising, the commit inside end_session failing,
and create_session failing.  All false means the store behaves normally. -/
structure Faults where
  tx_fail : Bool := false
  balance_fail : Bool := false
  end_fail : Bool := false
  create_fail : Bool := false
deriving DecidableEq, Repr

/-- Lookup of a port by id (PortService.get via the Service cache). -/
def get_port (w : World) (pid : Nat) : Option Port :=
  w.ports.find? (fun p => p.id == pid)

/-- Lookup of a station by id (StationService.get). -/
def get_station (w : World) (sid : Nat) : Option Station :=
  w.stations.find? (fun s => s.id == sid)

/-- Lookup of a car by id (CarsService.get). -/
def get_car (w : World) (cid : Nat) : Option Car :=
  w.cars.find? (fun c => c.id == cid)

/-- Lookup of a user by id (UsersService.get). -/
def get_user (w : World) (uid : Nat) : Option User :=
  w.users.find? (fun u => u.id == uid)

/-- Lookup of a charging_sessions row by id. -/
def get_session_row (w : World) (sid : Nat) : Option SessionRow :=
  w.session_rows.find? (fun r => r.id == sid)

/-- ChargingSessionsService.get_session_status (lines 567-580): the registry
entry for a session id, or none when absent. -/
def get_session_status (w : World) (sid : Nat) : Option ActiveSession :=
  w.active_sessions.lookup sid

/-- Python dict assignment active_sessions[sid] = v: replace the entry in
place when the key exists, otherwise add it. -/
def dict_set (l : List (Nat × ActiveSession)) (k : Nat) (v : ActiveSession) :
    List (Nat × ActiveSession) :=
  if l.any (fun kv => kv.1 == k) then
    l.map (fun kv => if kv.1 == k then (k, v) else kv)
  else
    (k, v) :: l

/-- PortService.update_status (portService.py lines 143-166): set the status of
the port when it exists, otherwise leave the store unchanged (the False return
is ignored by every caller in the charging core). -/
def ports_update_status (w : World) (pid : Nat) (st : String) : World :=
  { w with ports :=
      w.ports.map (fun p => if p.id == pid then { p with status := st } else p) }

/-- UsersService.update_balance (userService.py lines 404-428): balance :=
balance + amount when the user exists; no change otherwise. -/
def update_balance (w : World) (uid : Nat) (amount : ℚ) : World :=
  { w with users :=
      w.users.map (fun u => if u.id == uid then { u with balance := u.balance + amount } else u) }

/-- UsersService.add_points (userService.py lines 430-461): points := points +
pts when the user exists; internal exceptions are caught and reported as
False, so the call never raises. -/
def add_points (w : World) (uid : Nat) (pts : Int) : World :=
  { w with users :=
      w.users.map (fun u => if u.id == uid then { u with points := u.points + pts } else u) }

/-- Next id computed as max existing id + 1, or 1 on an empty table
(TransactionService.create_transaction line 131, create_session lines 213-214). -/
def next_id (l : List Nat) : Nat :=
  match l with
  | [] => 1
  | _ => l.foldr max 0 + 1

/-- TransactionService.create_transaction (transactionService.py lines
115-149): append a new transaction row with the next id. -/
def create_transaction (w : World) (uid : Nat) (station_id car_id : Option Nat)
    (amount : ℚ) (ttype : String) : World :=
  let t : Transaction := { id := next_id (w.transactions.map (fun t => t.id)),
                           user_id := uid, station_id := station_id,
                           car_id := car_id, amount := amount, ttype := ttype }
  { w with transactions := w.transactions ++ [t] }

/-- Increment of the usage counter of the discount with a given id, as the
combined object mutation, commit and cache set of discountService.py lines
194-198. -/
def bump_usage (ds : List Discount) (did : Nat) : List Discount :=
  ds.map (fun e => if e.id == did then { e with usage_count := e.usage_count + 1 } else e)

/-- DiscountService.apply_discount (discountService.py lines 172-206).  The
code is matched case-insensitively (func.lower on both sides).  The expiry
test at line 188 compares datetime.utcnow() with the integer expiry_on column;
in Python 3 that comparison raises TypeError whenever expiry_on is truthy
(non-null and non-zero), and the except branch at lines 204-206 rolls the
transaction back and re-raises, so the whole call raises: modelled as
Except.error.  On success the usage counter of the matched discount is
incremented and the discounted amount is amount * (1 - value / 100). -/
def apply_discount (w : World) (amount : ℚ) (code : String) :
    Except Unit (World × ℚ × DiscountStatus) :=
  match w.discounts.find? (fun d => lowerStr d.code == lowerStr code) with
  | none => Except.ok (w, amount, DiscountStatus.NOT_FOUND)
  | some d =>
    if d.expiry_on.getD 0 ≠ 0 then
      Except.error ()
    else
      match d.max_uses with
      | some m =>
        if d.usage_count ≥ m then
          Except.ok (w, amount, DiscountStatus.MAX_USES_REACHED)
        else
          Except.ok ({ w with discounts := bump_usage w.discounts d.id },
                     amount * (1 - d.value / 100), DiscountStatus.SUCCESS)
      | none =>
        Except.ok ({ w with discounts := bump_usage w.discounts d.id },
                   amount * (1 - d.value / 100), DiscountStatus.SUCCESS)

/-- Discount matched by apply_discount for a given code, before application. -/
def find_discount (w : World) (code : String) : Option Discount :=
  w.discounts.find? (fun d => lowerStr d.code == lowerStr code)

/-- Usage count of the discount matching a code, when one exists. -/
def usage_of (w : World) (code : String) : Option Nat :=
  (find_discount w code).map (fun d => d.usage_count)

/-- True when applying the given stored-or-supplied code cannot raise: either
no code, or no matching discount, or a falsy expiry_on. -/
def discount_no_raise (w : World) (dc : Option String) : Bool :=
  match dc with
  | none => true
  | some code =>
    match find_discount w code with
    | none => true
    | some d => d.expiry_on.getD 0 == 0

/-- Python int() applied to a rational: truncation toward zero. -/
def pyInt (q : ℚ) : ℤ :=
  if 0 ≤ q then ⌊q⌋ else ⌈q⌉

/-- ChargingSessionsService.create_session (lines 196-232): insert a new
charging_sessions row with the next id, end fields null. -/
def create_session (w : World) (f : Faults) (user_id port_id : Nat) :
    World × Option SessionRow :=
  if f.create_fail then (w, none)
  else
    let row : SessionRow :=
      { id := next_id (w.session_rows.map (fun r => r.id)),
        user_id := user_id, port_id := port_id, car_id := none, started_on := w.now,
        end_on := none, energy_consumed := none, power_limit := none, cost := none }
    ({ w with session_rows := w.session_rows ++ [row] }, some row)

/-- ChargingSessionsService.initialize_charging (lines 234-274).  The port is
fetched (a missing port raises AttributeError on port.station_id, caught by
the except: no effect); the station is fetched with no status check and no
availability check on the port; the session row is persisted; the port is set
InUse; the registry entry is built (a missing station raises AttributeError on
station.id only at this point, after the row insert and the InUse update,
which the except leaves in place). -/
def initialize_charging (w : World) (f : Faults) (user_id port_id : Nat) :
    World × Option ActiveSession :=
  match get_port w port_id with
  | none => (w, none)
  | some port =>
    let station? := get_station w port.station_id
    match create_session w f user_id port_id with
    | (w1, none) => (w1, none)
    | (w1, some row) =>
      let w2 := ports_update_status w1 port_id "InUse"
      match station? with
      | none => (w2, none)
      | some station =>
        let st : ActiveSession :=
          { session_id := row.id, user_id := user_id,
            port_id := port_id, station_id := station.id, max_power := port.max_power,
            price_per_kwh := station.price_per_kwh, connector_type := port.connector_type,
            charging_status := "initialized", started_on := w2.now,
            current_kwh := 0, current_power := 0, current_cost := 0 }
        ({ w2 with active_sessions := dict_set w2.active_sessions row.id st }, some st)

/-- ChargingSessionsService.update_charging_status (lines 403-440): refresh
the registry entry with the tick readings, then accrue loyalty points as
int((current_kwh - last_points_kwh) * 100) when positive, advancing the
checkpoint; absent session returns False. -/
def update_charging_status (w : World) (sid : Nat) (current_kwh : ℚ)
    (status : String) (charging_power current_cost : ℚ) : World × Bool :=
  match get_session_status w sid with
  | none => (w, false)
  | some sess =>
    let sess1 := { sess with current_kwh := current_kwh, current_power := charging_power,
                             current_cost := current_cost, charging_status := status }
    let pts := pyInt ((current_kwh - sess1.last_points_kwh.getD 0) * 100)
    if 0 < pts then
      let sess2 := { sess1 with last_points_kwh := some current_kwh }
      (add_points { w with active_sessions := dict_set w.active_sessions sid sess2 }
         sess1.user_id pts, true)
    else
      ({ w with active_sessions := dict_set w.active_sessions sid sess1 }, true)

/-- Outcome messages of start_charging, one constructor per return site of
lines 337-401 (the Polish message strings are abstracted to their kind). -/
inductive StartMsg where
  | no_session_or_wrong_user
  | discount_error (st : DiscountStatus)
  | insufficient_balance
  | car_not_found
  | started
  | system_error
deriving DecidableEq, Repr

/-- Tail of start_charging after the discount step (lines 369-397): the
balance check (a missing user raises AttributeError on user.balance, caught as
the system-error return, after the discount effects committed), the car check,
the row update and the registry transition to charging.  estimated_cost is the
possibly discounted preview cost; dc is the discount code recorded for
settlement (only a successfully applied one). -/
def start_charging_rest (w : World) (sid : Nat) (sess : ActiveSession)
    (user? : Option User) (target_kwh estimated_cost : ℚ) (car_id : Nat)
    (dc : Option String) : World × Bool × ℚ × StartMsg :=
  match user? with
  | none => (w, false, 0, StartMsg.system_error)
  | some user =>
    if user.balance < estimated_cost then
      (ports_update_status w sess.port_id "Available", false, estimated_cost,
       StartMsg.insufficient_balance)
    else
      match get_car w car_id with
      | none => (ports_update_status w sess.port_id "Available", false, estimated_cost,
                 StartMsg.car_not_found)
      | some car =>
        let w1 : World := { w with session_rows := w.session_rows.map (fun r =>
            if r.id == sid then
              { r with car_id := some car_id,
                       power_limit := some (min sess.max_power car.max_charging_power) }
            else r) }
        let sess1 :=
          { sess with car_id := some car_id, target_kwh := some target_kwh,
                      estimated_cost := some estimated_cost, charging_status := "charging",
                      discount_code := dc }
        ({ w1 with active_sessions := dict_set w1.active_sessions sid sess1 },
         true, estimated_cost, StartMsg.started)

/-- ChargingSessionsService.start_charging (lines 337-401): ownership check,
price preview target_kwh * price_per_kwh, optional discount application (a
failure status releases the port and aborts; a raise from apply_discount is
caught by the outer except as the system-error return without releasing the
port), then the balance / car checks and the transition to charging. -/
def start_charging (w : World) (sid user_id : Nat) (target_kwh : ℚ) (car_id : Nat)
    (discount_code : Option String) : World × Bool × ℚ × StartMsg :=
  match get_session_status w sid with
  | none => (w, false, 0, StartMsg.no_session_or_wrong_user)
  | some sess =>
    if sess.user_id ≠ user_id then (w, false, 0, StartMsg.no_session_or_wrong_user)
    else
      let user? := get_user w user_id
      let estimated_cost := target_kwh * sess.price_per_kwh
      match discount_code with
      | none => start_charging_rest w sid sess user? target_kwh estimated_cost car_id none
      | some code =>
        match apply_discount w estimated_cost code with
        | Except.error _ => (w, false, 0, StartMsg.system_error)
        | Except.ok (w1, est1, st) =>
          if st = DiscountStatus.SUCCESS then
            start_charging_rest w1 sid sess user? target_kwh est1 car_id (some code)
          else
            (ports_update_status w1 sess.port_id "Available", false, est1,
             StartMsg.discount_error st)

/-- ChargingSessionsService.process_payment (lines 442-482): apply the
discount code when present (a raise from apply_discount is caught by the
except and reported as failure with the pre-discount cost), then create the
negative Payment transaction and debit the balance; any raise from those two
steps is caught and reported as failure, with the steps already done kept.
The session dict must hold a car_id key (it is read while building the
create_transaction arguments; a missing key raises KeyError, caught as
failure).  Returns the possibly discounted final cost and the success flag. -/
def process_payment (w : World) (f : Faults) (sid : Nat) (final_cost : ℚ)
    (discount_code : Option String) : World × ℚ × Bool :=
  match get_session_status w sid with
  | none => (w, final_cost, false)
  | some sess =>
    let dres : World × ℚ × Bool :=
      match discount_code with
      | none => (w, final_cost, false)
      | some code =>
        match apply_discount w final_cost code with
        | Except.error _ => (w, final_cost, true)
        | Except.ok (w1, amt, st) =>
          if st = DiscountStatus.SUCCESS then (w1, amt, false) else (w1, final_cost, false)
    match dres with
    | (w1, fc, true) => (w1, fc, false)
    | (w1, fc, false) =>
      match sess.car_id with
      | none => (w1, fc, false)
      | some cid =>
        if f.tx_fail then (w1, fc, false)
        else
          let w2 := create_transaction w1 sess.user_id (some sess.station_id) (some cid)
            (-fc) "Payment"
          if f.balance_fail then (w2, fc, false)
          else (update_balance w2 sess.user_id (-fc), fc, true)

/-- ChargingSessionsService.end_session (lines 303-335): persist end_on,
energy_consumed and cost on the charging_sessions row; none on a missing row
or a database fault. -/
def end_session (w : World) (f : Faults) (sid : Nat) (energy cost : ℚ) :
    World × Option SessionRow :=
  if f.end_fail then (w, none)
  else
    match get_session_row w sid with
    | none => (w, none)
    | some row =>
      let row1 := { row with end_on := some w.now, energy_consumed := some energy,
                             cost := some cost }
      ({ w with session_rows := w.session_rows.map (fun r => if r.id == sid then row1 else r) },
       some row1)

/-- Reason recorded at settlement when none is passed: inferred from the
Maintenance status of the session's port, then of its station
(end_charging_session lines 518-522).  The Python code computes this value
and then never reads it again; it is recorded in the specification ledger. -/
def resolved_reason (w : World) (sess : ActiveSession) (reason : Option String) :
    Option String :=
  match reason with
  | some r => some r
  | none =>
    if (get_port w sess.port_id).map (fun p => p.status) = some "Maintenance" then
      some "port_maintenance"
    else if (get_station w sess.station_id).map (fun s => s.status) = some "Maintenance" then
      some "station_maintenance"
    else none

/-- Discount code used at settlement: the supplied one, then the one stored on
the session (end_charging_session lines 524-525). -/
def resolve_dc (discount_code : Option String) (sess : ActiveSession) : Option String :=
  match discount_code with
  | some c => some c
  | none => sess.discount_code

/-- ChargingSessionsService.end_charging_session (lines 484-565): a session id
absent from the registry raises KeyError, caught by the outer except with no
state change; otherwise the reason is resolved from Maintenance statuses when
unset (and then only recorded in the specification ledger: the code never
reads it again), the stored discount code is substituted when none is passed,
payment is processed (failure aborts keeping the payment step's partial
effects), the row is finalized, the port released to Available and the
registry entry removed.  A registry entry without a car_id key makes the
evaluation of the process_payment arguments raise KeyError, caught as
failure. -/
def end_charging_session (w : World) (f : Faults) (sid : Nat)
    (final_energy final_cost : ℚ) (reason : Option String)
    (discount_code : Option String) : World × Bool :=
  match get_session_status w sid with
  | none => (w, false)
  | some sess =>
    let reason1 : Option String := resolved_reason w sess reason
    let dc := resolve_dc discount_code sess
    match sess.car_id with
    | none => (w, false)
    | some _ =>
      match process_payment w f sid final_cost dc with
      | (w1, _, false) => (w1, false)
      | (w1, fc1, true) =>
        match end_session w1 f sid final_energy fc1 with
        | (w2, none) => (w2, false)
        | (w2, some row) =>
          let w3 := match get_port w2 row.port_id with
                    | some p => ports_update_status w2 p.id "Available"
                    | none => w2
          ({ w3 with
             active_sessions := w3.active_sessions.filter (fun kv => kv.1 != sid),
             settlements := (sid, reason1) :: w3.settlements }, true)

/-- ChargingSessionsService.check_charging_availability (lines 597-623):
absent session reports session_not_found; a missing port raises
AttributeError on port.status, caught as system_error; Maintenance statuses
report the matching interrupt reason. -/
def check_charging_availability (w : World) (sid : Nat) : Bool × Option String :=
  match get_session_status w sid with
  | none => (false, some "session_not_found")
  | some sess =>
    match get_port w sess.port_id with
    | none => (false, some "system_error")
    | some port =>
      if port.status = "Maintenance" then (false, some "port_maintenance")
      else
        match get_station w sess.station_id with
        | none => (false, some "system_error")
        | some st =>
          if st.status = "Maintenance" then (false, some "station_maintenance")
          else (true, none)

/-- Termination decision of one telemetry tick (charging.py lines 222-228), in
the priority order of the code. -/
def end_reason_of (battery_level current_kwh battery_capacity target : ℚ) :
    Option String :=
  if battery_level ≥ 100 then some "battery_full"
  else if current_kwh ≥ battery_capacity then some "capacity_reached"
  else if current_kwh ≥ target - 1 / 100 then some "target_reached"
  else none

/-- Messages the charging socket sends to the client (charging.py), with their
unrounded numeric payloads. -/
inductive Event where
  | charging_started (max_power target price capacity : ℚ)
  | charging_update (kwh power level temp cost : ℚ)
  | charging_interrupted (reason : String)
  | charging_completed (final_energy final_cost : ℚ) (end_reason : String)
  | error_event
deriving DecidableEq, Repr

/-- Loop-local variables of charging_socket (lines 119-123). -/
structure LoopState where
  current_kwh : ℚ
  current_cost : ℚ
  charging_power : ℚ
  battery_temp : ℚ
  status : String
deriving DecidableEq, Repr

/-- Environment of one loop iteration: whether the client connection is still
open at the loop head, the meter endpoint's reply (some kwh for an HTTP 200,
none for a request failure or another status code), and whether an unexpected
exception interrupts this iteration. -/
structure TickEnv where
  connected : Bool
  meter : Option ℚ
  raise_fault : Bool := false
deriving DecidableEq, Repr

/-- How the while loop of charging_socket was left. -/
inductive ExitKind where
  | silent
  | interrupted
  | completed
  | raised
  | disconnected
deriving DecidableEq, Repr

/-- One iteration of the charging_socket while body (lines 137-258).
Availability is checked first: session_not_found breaks silently, any other
interrupt reason settles with that reason and emits charging_interrupted.
Otherwise the tick accumulates energy: the meter reply env.meter fetched at
lines 171-183 is only printed, because line 189 then unconditionally assigns
energy_delta = 1, so the accumulated delta is the fixed 1 kWh whatever the
fetch returned.  Temperature, derating, battery level and cost are updated, a
charging_update is emitted, UpdateTick runs with status active, and the
termination decision either completes the session (status done, settlement
with the decided reason, charging_completed, break) or continues. -/
def loopStep (w : World) (f : Faults) (env : TickEnv) (sid : Nat)
    (price target capacity : ℚ) (ls : LoopState) :
    World × LoopState × List Event × Option ExitKind :=
  if env.raise_fault then (w, ls, [Event.error_event], some ExitKind.raised)
  else
    match check_charging_availability w sid with
    | (false, reason?) =>
      if reason? = some "session_not_found" then (w, ls, [], some ExitKind.silent)
      else
        let r := reason?.getD ""
        let res := end_charging_session w f sid ls.current_kwh ls.current_cost reason? none
        (res.1, ls, [Event.charging_interrupted r], some ExitKind.interrupted)
    | (true, _) =>
      let energy_delta : ℚ := 1
      let kwh1 := ls.current_kwh + energy_delta
      let temp1 := ls.battery_temp + 1 / 10
      let power1 := if temp1 > 40 then ls.charging_power * (9 / 10) else ls.charging_power
      let level := min 100 (kwh1 / capacity * 100)
      let cost1 := ls.current_cost + energy_delta * price
      let ev := Event.charging_update kwh1 power1 level temp1 cost1
      let res1 := update_charging_status w sid kwh1 "active" power1 cost1
      match end_reason_of level kwh1 capacity target with
      | some r =>
        let res2 := update_charging_status res1.1 sid kwh1 "done" power1 cost1
        let res3 := end_charging_session res2.1 f sid kwh1 cost1 (some r) none
        (res3.1,
         { current_kwh := kwh1, current_cost := cost1, charging_power := power1,
           battery_temp := temp1, status := "done" },
         [ev, Event.charging_completed kwh1 cost1 r], some ExitKind.completed)
      | none =>
        (res1.1,
         { current_kwh := kwh1, current_cost := cost1, charging_power := power1,
           battery_temp := temp1, status := "active" }, [ev], none)

/-- The while loop of charging_socket: one loopStep per environment entry
while the connection stays open, stopping at the first iteration that breaks
or raises; an exhausted environment or a closed connection is the client
disconnecting. -/
def runLoop (w : World) (f : Faults) (envs : List TickEnv) (sid : Nat)
    (price target capacity : ℚ) (ls : LoopState) :
    World × LoopState × List Event × ExitKind :=
  match envs with
  | [] => (w, ls, [], ExitKind.disconnected)
  | env :: rest =>
    if env.connected then
      match loopStep w f env sid price target capacity ls with
      | (w1, ls1, evs, some ek) => (w1, ls1, evs, ek)
      | (w1, ls1, evs, none) =>
        let res := runLoop w1 f rest sid price target capacity ls1
        (res.1, res.2.1, evs ++ res.2.2.1, res.2.2.2)
    else (w, ls, [], ExitKind.disconnected)

/-- The finally block of charging_socket (lines 272-301): when the session is
still in the registry and its status is not stopped or completed (statuses the
loop never produces: a settled session was removed from the registry instead),
mark it interrupted via UpdateTick and settle it with reason connection_lost.
Returns whether a settlement call was made. -/
def cleanup (w : World) (f : Faults) (sid : Nat) (ls : LoopState) : World × Bool :=
  match get_session_status w sid with
  | none => (w, false)
  | some sess =>
    if sess.charging_status = "stopped" ∨ sess.charging_status = "completed" then (w, false)
    else
      let res1 := update_charging_status w sid ls.current_kwh "interrupted"
        ls.charging_power ls.current_cost
      let res2 := end_charging_session res1.1 f sid ls.current_kwh ls.current_cost
        (some "connection_lost") none
      (res2.1, true)

/-- The whole charging_socket handler (lines 39-301) for an authenticated user:
access check against the registry, car lookup, initial loop state, the
charging_started message (whose target_kwh read raises KeyError for a session
that never started charging, caught by the except with the finally still
running cleanup), the while loop, and the finally-block cleanup that runs on
every exit path of the loop. -/
def charging_socket_run (w : World) (f : Faults) (envs : List TickEnv)
    (sid user_id : Nat) : World × List Event :=
  match get_session_status w sid with
  | none => (w, [Event.error_event])
  | some sess =>
    if sess.user_id ≠ user_id then (w, [Event.error_event])
    else
      match sess.car_id with
      | none => (w, [])
      | some cid =>
        match get_car w cid with
        | none => (w, [Event.error_event])
        | some car =>
          let ls0 : LoopState :=
            { current_kwh := 0, current_cost := 0,
              charging_power := min sess.max_power car.max_charging_power,
              battery_temp := 25, status := "active" }
          match sess.target_kwh with
          | none =>
            let res := cleanup w f sid ls0
            (res.1, [Event.error_event])
          | some target =>
            let started := Event.charging_started ls0.charging_power target
              sess.price_per_kwh car.battery_capacity
            let lr := runLoop w f envs sid sess.price_per_kwh target car.battery_capacity ls0
            let res := cleanup lr.1 f sid lr.2.1
            (res.1, started :: lr.2.2.1)

/-- Invariant asserted by the specification for every reachable state: a port
never has two unsettled rows referencing it, and its status is InUse exactly
when one active-registry session references it.  Stated from the
specification's words, to be compared with what the code reaches. -/
def port_mutex_invariant (w : World) : Prop :=
  ∀ p ∈ w.ports,
    (w.session_rows.filter (fun r => r.port_id == p.id && r.end_on.isNone)).length ≤ 1 ∧
    ((p.status = "InUse") ↔
      (w.active_sessions.filter (fun kv => kv.2.port_id == p.id)).length = 1)

/-! ## Helper lemmas -/

/-- Bumping the usage counter never changes which discount a code lookup
finds, and the found discount is the bumped one. -/
theorem find?_bump_usage (ds : List Discount) (code : String) (d : Discount)
    (h : ds.find? (fun e => lowerStr e.code == lowerStr code) = some d) :
    (bump_usage ds d.id).find? (fun e => lowerStr e.code == lowerStr code) =
      some { d with usage_count := d.usage_count + 1 } := by
  unfold bump_usage
  rw [List.find?_map]
  have hcomp : ((fun e => lowerStr e.code == lowerStr code) ∘
      (fun e : Discount => if e.id == d.id then { e with usage_count := e.usage_count + 1 } else e)) =
      (fun e : Discount => lowerStr e.code == lowerStr code) := by
    funext e
    by_cases he : e.id == d.id <;> simp [Function.comp, he]
  rw [hcomp, h]
  simp

/-! ## C4 -/

/-- C4: a SUCCESS application of a discount code returns exactly
amount * (1 - value / 100) and increments the matched code's usage count by
one; any other returned status leaves the amount and the whole store
untouched; and a successfully applied discount with max_uses = 1 answers
MAX_USES_REACHED to every subsequent application. -/
theorem C4_apply_discount (w : World) (amount : ℚ) (code : String)
    (w' : World) (amt : ℚ) (st : DiscountStatus)
    (h : apply_discount w amount code = Except.ok (w', amt, st)) :
    (st = DiscountStatus.SUCCESS →
      ∃ d, find_discount w code = some d ∧
        amt = amount * (1 - d.value / 100) ∧
        usage_of w' code = some (d.usage_count + 1)) ∧
    (st ≠ DiscountStatus.SUCCESS → amt = amount ∧ w' = w) ∧
    (∀ d, find_discount w code = some d → d.max_uses = some 1 →
        st = DiscountStatus.SUCCESS →
        ∀ b, apply_discount w' b code = Except.ok (w', b, DiscountStatus.MAX_USES_REACHED)) := by
  unfold apply_discount at h
  split at h
  next hfd =>
    simp only [Except.ok.injEq, Prod.mk.injEq] at h
    obtain ⟨hw, hamt, hst⟩ := h
    subst hw; subst hamt; subst hst
    refine ⟨by simp, fun _ => ⟨rfl, rfl⟩, ?_⟩
    intro d hd
    unfold find_discount at hd
    rw [hfd] at hd
    exact absurd hd (by simp)
  next d hfd =>
    have hfind : find_discount w code = some d := hfd
    split at h
    next hexp => exact absurd h (by simp)
    next hexp =>
      split at h
      next m hmu =>
        split at h
        next hcnt =>
          simp only [Except.ok.injEq, Prod.mk.injEq] at h
          obtain ⟨hw, hamt, hst⟩ := h
          subst hw; subst hamt; subst hst
          refine ⟨by simp, fun _ => ⟨rfl, rfl⟩, ?_⟩
          intro d0 _ _ hs
          exact absurd hs (by simp)
        next hcnt =>
          simp only [Except.ok.injEq, Prod.mk.injEq] at h
          obtain ⟨hw, hamt, hst⟩ := h
          subst hw; subst hamt; subst hst
          have hfind' : find_discount { w with discounts := bump_usage w.discounts d.id } code
              = some { d with usage_count := d.usage_count + 1 } :=
            find?_bump_usage w.discounts code d hfd
          refine ⟨fun _ => ⟨d, hfind, rfl, by rw [usage_of, hfind']; rfl⟩,
                  fun hns => absurd rfl hns, ?_⟩
          intro d0 hd0 hone _ b
          rw [hfind] at hd0
          injection hd0 with hd0d
          subst hd0d
          unfold apply_discount
          unfold find_discount at hfind'
          rw [hfind']
          dsimp only
          rw [if_neg hexp]
          rw [hone]
          dsimp only
          rw [if_pos (show d.usage_count + 1 ≥ 1 by omega)]
      next hmu =>
        simp only [Except.ok.injEq, Prod.mk.injEq] at h
        obtain ⟨hw, hamt, hst⟩ := h
        subst hw; subst hamt; subst hst
        have hfind' : find_discount { w with discounts := bump_usage w.discounts d.id } code
            = some { d with usage_count := d.usage_count + 1 } :=
          find?_bump_usage w.discounts code d hfd
        refine ⟨fun _ => ⟨d, hfind, rfl, by rw [usage_of, hfind']; rfl⟩,
                fun hns => absurd rfl hns, ?_⟩
        intro d0 hd0 hone
        rw [hfind] at hd0
        injection hd0 with hd0d
        subst hd0d
        rw [hone] at hmu
        exact absurd hmu (by simp)

/-- World holding one discount SAVE10, 10 percent, no expiry, max one use,
never used. -/
def W4 : World :=
  { ports := [], stations := [], cars := [], users := [],
    discounts := [{ id := 1, code := "SAVE10", value := 10, expiry_on := none,
                    usage_count := 0, max_uses := some 1 }],
    session_rows := [], active_sessions := [], transactions := [],
    settlements := [], now := 0 }

/-- World W4 after one successful application of SAVE10. -/
def W4' : World :=
  { W4 with discounts := [{ id := 1, code := "SAVE10", value := 10, expiry_on := none,
                            usage_count := 1, max_uses := some 1 }] }

/-- Witness for C4: applying SAVE10 to 200 in W4 succeeds with 180, bumps the
usage count to 1, and a second application answers MAX_USES_REACHED. -/
theorem C4_apply_discount_witness :
    (∃ d, find_discount W4 "save10" = some d ∧
      (180 : ℚ) = 200 * (1 - d.value / 100) ∧
      usage_of W4' "save10" = some (d.usage_count + 1)) ∧
    apply_discount W4' 30 "save10" = Except.ok (W4', 30, DiscountStatus.MAX_USES_REACHED) := by
  have happ : apply_discount W4 200 "save10" = Except.ok (W4', 180, DiscountStatus.SUCCESS) := by
    simp +decide [apply_discount, W4, W4', bump_usage]
    norm_num
  have h := C4_apply_discount W4 200 "save10" W4' 180 DiscountStatus.SUCCESS happ
  obtain ⟨hs, -, hmax⟩ := h
  refine ⟨hs rfl, ?_⟩
  have hfd : find_discount W4 "save10" =
      some { id := 1, code := "SAVE10", value := 10, expiry_on := none,
             usage_count := 0, max_uses := some 1 } := by
    simp +decide [find_discount, W4]
  exact hmax _ hfd rfl rfl 30

/-! ## Frame lemmas -/

/-- apply_discount can only change the discounts table: registry, rows,
ports, users, transactions and the settlement ledger are untouched. -/
theorem apply_discount_frame (w : World) (a : ℚ) (code : String) (w' : World)
    (amt : ℚ) (st : DiscountStatus)
    (h : apply_discount w a code = Except.ok (w', amt, st)) :
    w'.active_sessions = w.active_sessions ∧ w'.session_rows = w.session_rows ∧
    w'.ports = w.ports ∧ w'.users = w.users ∧ w'.settlements = w.settlements := by
  unfold apply_discount at h
  split at h
  next =>
    simp only [Except.ok.injEq, Prod.mk.injEq] at h
    obtain ⟨hw, -, -⟩ := h
    subst hw
    exact ⟨rfl, rfl, rfl, rfl, rfl⟩
  next d hfd =>
    split at h
    next => exact absurd h (by simp)
    next =>
      split at h
      next m hmu =>
        split at h
        all_goals
          simp only [Except.ok.injEq, Prod.mk.injEq] at h
        all_goals
          obtain ⟨hw, -, -⟩ := h
        all_goals
          subst hw
        all_goals
          exact ⟨rfl, rfl, rfl, rfl, rfl⟩
      next hmu =>
        simp only [Except.ok.injEq, Prod.mk.injEq] at h
        obtain ⟨hw, -, -⟩ := h
        subst hw
        exact ⟨rfl, rfl, rfl, rfl, rfl⟩

/-- Eta expansion of a state-result triple whose flag is known false. -/
theorem triple_eta_false {p : World × ℚ × Bool} (h : p.2.2 = false) :
    p = (p.1, p.2.1, false) := by
  obtain ⟨a, b, c⟩ := p
  dsimp only at h
  subst h
  rfl

/-- process_payment can only change discounts, transactions and user
balances: the registry, the session rows and the ports are untouched,
whatever the outcome. -/
theorem process_payment_frame (w : World) (f : Faults) (sid : Nat) (fc : ℚ)
    (dc : Option String) :
    (process_payment w f sid fc dc).1.active_sessions = w.active_sessions ∧
    (process_payment w f sid fc dc).1.session_rows = w.session_rows ∧
    (process_payment w f sid fc dc).1.ports = w.ports ∧
    (process_payment w f sid fc dc).1.settlements = w.settlements := by
  unfold process_payment
  cases hs : get_session_status w sid with
  | none => exact ⟨rfl, rfl, rfl, rfl⟩
  | some sess =>
    dsimp only
    rcases hdres : (match dc with
      | none => (w, fc, false)
      | some code =>
        match apply_discount w fc code with
        | Except.error _ => (w, fc, true)
        | Except.ok (w1, amt, st) =>
          if st = DiscountStatus.SUCCESS then (w1, amt, false)
          else (w1, fc, false) : World × ℚ × Bool) with ⟨w1, b1, bl⟩
    have hfr : w1.active_sessions = w.active_sessions ∧ w1.session_rows = w.session_rows ∧
        w1.ports = w.ports ∧ w1.settlements = w.settlements := by
      cases dc with
      | none =>
        simp only [Prod.mk.injEq] at hdres
        obtain ⟨hw, -, -⟩ := hdres
        subst hw
        exact ⟨rfl, rfl, rfl, rfl⟩
      | some code =>
        dsimp only at hdres
        cases hok : apply_discount w fc code with
        | error e =>
          rw [hok] at hdres
          simp only [Prod.mk.injEq] at hdres
          obtain ⟨hw, -, -⟩ := hdres
          subst hw
          exact ⟨rfl, rfl, rfl, rfl⟩
        | ok res =>
          obtain ⟨wd, amt, st⟩ := res
          rw [hok] at hdres
          obtain ⟨ha, hr, hp, -, hst⟩ := apply_discount_frame w fc code wd amt st hok
          dsimp only at hdres
          split at hdres <;>
          · simp only [Prod.mk.injEq] at hdres
            obtain ⟨hw, -, -⟩ := hdres
            subst hw
            exact ⟨ha, hr, hp, hst⟩
    cases bl with
    | true => exact hfr
    | false =>
      dsimp only
      cases hcid : sess.car_id with
      | none => exact hfr
      | some cid =>
        dsimp only
        by_cases htx : f.tx_fail = true
        · rw [if_pos htx]; exact hfr
        · rw [if_neg htx]
          by_cases hbal : f.balance_fail = true
          · rw [if_pos hbal]; exact hfr
          · rw [if_neg hbal]; exact hfr

/-! ## C10 -/

/-- C10: calling end_charging_session for a session id that is not in the
active registry returns False and performs no state change at all. -/
theorem C10_end_absent_session (w : World) (f : Faults) (sid : Nat)
    (final_energy final_cost : ℚ) (reason discount_code : Option String)
    (h : get_session_status w sid = none) :
    end_charging_session w f sid final_energy final_cost reason discount_code
      = (w, false) := by
  unfold end_charging_session
  rw [h]

/-- Witness for C10: in a world with an empty registry, settling session 1
fails and the world is returned unchanged. -/
theorem C10_end_absent_session_witness :
    end_charging_session W4 {} 1 5 10 none none = (W4, false) :=
  C10_end_absent_session W4 {} 1 5 10 none none rfl

/-! ## C3 -/

/-- C3: when the payment step of a settlement fails, the settlement returns
False and the session's state is untouched: the session stays in the active
registry, the session row keeps its null end fields, and no port status is
changed. -/
theorem C3_settlement_payment_failure (w : World) (f : Faults) (sid : Nat)
    (final_energy final_cost : ℚ) (reason discount_code : Option String)
    (sess : ActiveSession)
    (hs : get_session_status w sid = some sess)
    (hcar : sess.car_id.isSome)
    (hpay : (process_payment w f sid final_cost (resolve_dc discount_code sess)).2.2
      = false) :
    (end_charging_session w f sid final_energy final_cost reason discount_code).2 = false ∧
    (end_charging_session w f sid final_energy final_cost reason discount_code).1.active_sessions
      = w.active_sessions ∧
    (end_charging_session w f sid final_energy final_cost reason discount_code).1.session_rows
      = w.session_rows ∧
    (end_charging_session w f sid final_energy final_cost reason discount_code).1.ports
      = w.ports := by
  obtain ⟨cid, hcid⟩ := Option.isSome_iff_exists.mp hcar
  have hframe := process_payment_frame w f sid final_cost (resolve_dc discount_code sess)
  have hpp := triple_eta_false hpay
  unfold end_charging_session
  rw [hs]
  dsimp only
  rw [hcid]
  dsimp only
  rw [hpp]
  exact ⟨rfl, hframe.1, hframe.2.1, hframe.2.2.1⟩

/-- Active session of the base witness world: session 1 of user 5 charging on
port 1 of station 1, car 7 attached, target 10 kWh at 2 per kWh. -/
def baseSession : ActiveSession :=
  { session_id := 1, user_id := 5, port_id := 1, station_id := 1, max_power := 22,
    price_per_kwh := 2, connector_type := "Type2", charging_status := "charging",
    started_on := 0, current_kwh := 0, current_power := 0, current_cost := 0,
    car_id := some 7, target_kwh := some 10, estimated_cost := some 20,
    discount_code := none, last_points_kwh := none }

/-- Base witness world: one active station, one InUse port, one user with
balance 100, one car, session 1 mid-charge. -/
def W0 : World :=
  { ports := [{ id := 1, station_id := 1, max_power := 22, connector_type := "Type2",
                status := "InUse" }],
    stations := [{ id := 1, price_per_kwh := 2, status := "active" }],
    cars := [{ id := 7, owner_id := 5, battery_capacity := 50, max_charging_power := 11 }],
    users := [{ id := 5, balance := 100, points := 0 }],
    discounts := [],
    session_rows := [{ id := 1, user_id := 5, port_id := 1, car_id := some 7, started_on := 0,
                       end_on := none, energy_consumed := none, power_limit := some 11,
                       cost := none }],
    active_sessions := [(1, baseSession)],
    transactions := [], settlements := [], now := 1000 }

/-- Witness for C3: with a transaction-ledger fault injected, settling session
1 of W0 fails and leaves the registry, the rows and the ports as they were. -/
theorem C3_settlement_payment_failure_witness :
    (end_charging_session W0 { tx_fail := true } 1 5 10 none none).2 = false ∧
    (end_charging_session W0 { tx_fail := true } 1 5 10 none none).1.active_sessions
      = W0.active_sessions ∧
    (end_charging_session W0 { tx_fail := true } 1 5 10 none none).1.session_rows
      = W0.session_rows ∧
    (end_charging_session W0 { tx_fail := true } 1 5 10 none none).1.ports = W0.ports := by
  refine C3_settlement_payment_failure W0 { tx_fail := true } 1 5 10 none none baseSession
    rfl rfl ?_
  simp +decide [process_payment, get_session_status, W0, baseSession]

/-! ## C9 -/

/-- Python int() truncation agrees with the floor exactly on the positive
side: both are positive together, and equal when positive. -/
theorem pyInt_pos_floor (x : ℚ) :
    (0 < pyInt x ↔ 0 < ⌊x⌋) ∧ (0 < pyInt x → pyInt x = ⌊x⌋) := by
  unfold pyInt
  by_cases h : 0 ≤ x
  · rw [if_pos h]
    exact ⟨Iff.rfl, fun _ => rfl⟩
  · rw [if_neg h]
    push_neg at h
    have hc : (⌈x⌉ : ℤ) ≤ 0 := Int.ceil_le.mpr (by exact_mod_cast h.le)
    have hf : (⌊x⌋ : ℤ) ≤ ⌈x⌉ := Int.floor_le_ceil x
    exact ⟨⟨fun hx => absurd hx (by omega), fun hx => absurd hx (by omega)⟩,
           fun hx => absurd hx (by omega)⟩

/-- add_points of a present user rewrites exactly that user's points. -/
theorem get_user_add_points (w : World) (uid : Nat) (pts : Int) (u : User)
    (hu : get_user w uid = some u) :
    get_user (add_points w uid pts) uid = some { u with points := u.points + pts } := by
  unfold get_user at hu
  unfold get_user add_points
  dsimp only
  rw [List.find?_map]
  have hcomp : ((fun x => x.id == uid) ∘
      (fun x : User => if x.id == uid then { x with points := x.points + pts } else x)) =
      (fun x : User => x.id == uid) := by
    funext x
    by_cases hx : (x.id == uid) = true <;> simp [Function.comp, hx]
  rw [hcomp, hu]
  have hid := List.find?_some (p := fun x : User => x.id == uid) hu
  simp only [beq_iff_eq] at hid
  simp [hid]

/-- In-place replacement of a present key feeds the lookup the new value. -/
theorem lookup_map_set (l : List (Nat × ActiveSession)) (k : Nat) (v : ActiveSession)
    (h : l.any (fun kv => kv.1 == k) = true) :
    (l.map (fun kv => if kv.1 == k then (k, v) else kv)).lookup k = some v := by
  induction l with
  | nil => simp at h
  | cons a l ih =>
    simp only [List.any_cons, Bool.or_eq_true] at h
    by_cases ha : (a.1 == k) = true
    · rw [List.map_cons, if_pos ha]
      simp [List.lookup]
    · have hne : a.1 ≠ k := by simpa using ha
      have ha' : (k == a.1) = false := beq_eq_false_iff_ne.mpr (fun he => hne he.symm)
      have h' : l.any (fun kv => kv.1 == k) = true := by
        rcases h with h | h
        · exact absurd h ha
        · exact h
      rw [List.map_cons, if_neg ha]
      simp only [List.lookup, ha']
      exact ih h'

/-- Setting a key in the registry dict makes the lookup of that key return
the stored value. -/
theorem lookup_dict_set_self (l : List (Nat × ActiveSession)) (k : Nat) (v : ActiveSession) :
    (dict_set l k v).lookup k = some v := by
  unfold dict_set
  by_cases h : l.any (fun kv => kv.1 == k) = true
  · rw [if_pos h]
    exact lookup_map_set l k v h
  · rw [if_neg h]
    simp [List.lookup]

/-- Cumulative energy readings folded through UpdateTick, each tick at the
loop's power and the session's 2 per kWh price. -/
def tick_fold (w : World) (sid : Nat) (ks : List ℚ) : World :=
  ks.foldl (fun w' k => (update_charging_status w' sid k "active" 11 (2 * k)).1) w

/-- C9: one UpdateTick on an active session accrues exactly
floor((energy - lastCheckpoint) * 100) loyalty points and advances the
checkpoint to the current energy precisely when that quantity is positive;
otherwise the users table is untouched and the checkpoint keeps its value.
Ticks at 1..10 kWh on the base world accrue 1000 points in total. -/
theorem C9_update_tick_points (w : World) (sid : Nat) (kwh : ℚ)
    (status : String) (power cost : ℚ) (sess : ActiveSession) (u : User)
    (hs : get_session_status w sid = some sess)
    (hu : get_user w sess.user_id = some u) :
    (0 < ⌊(kwh - sess.last_points_kwh.getD 0) * 100⌋ →
      (update_charging_status w sid kwh status power cost).2 = true ∧
      get_user (update_charging_status w sid kwh status power cost).1 sess.user_id
        = some { u with points := u.points + ⌊(kwh - sess.last_points_kwh.getD 0) * 100⌋ } ∧
      get_session_status (update_charging_status w sid kwh status power cost).1 sid
        = some { sess with
                 current_kwh := kwh, current_power := power,
                 current_cost := cost, charging_status := status,
                 last_points_kwh := some kwh }) ∧
    (¬ 0 < ⌊(kwh - sess.last_points_kwh.getD 0) * 100⌋ →
      (update_charging_status w sid kwh status power cost).1.users = w.users ∧
      get_session_status (update_charging_status w sid kwh status power cost).1 sid
        = some { sess with
                 current_kwh := kwh, current_power := power,
                 current_cost := cost, charging_status := status }) ∧
    (get_user (tick_fold W0 1 [1, 2, 3, 4, 5, 6, 7, 8, 9, 10]) 5).map User.points
      = some 1000 := by
  have hx := pyInt_pos_floor ((kwh - sess.last_points_kwh.getD 0) * 100)
  refine ⟨?_, ?_, ?_⟩
  · intro hfl
    have hp : 0 < pyInt ((kwh - sess.last_points_kwh.getD 0) * 100) := hx.1.mpr hfl
    unfold update_charging_status
    rw [hs]
    dsimp only
    rw [if_pos hp]
    refine ⟨rfl, ?_, ?_⟩
    · have hres := get_user_add_points
        { w with
          active_sessions :=
            dict_set w.active_sessions sid
              { sess with
                current_kwh := kwh, current_power := power,
                current_cost := cost, charging_status := status,
                last_points_kwh := some kwh } }
        sess.user_id (pyInt ((kwh - sess.last_points_kwh.getD 0) * 100)) u hu
      rw [← hx.2 hp]
      exact hres
    · unfold get_session_status add_points
      dsimp only
      exact lookup_dict_set_self _ _ _
  · intro hfl
    have hp : ¬ 0 < pyInt ((kwh - sess.last_points_kwh.getD 0) * 100) :=
      fun hc => hfl (hx.1.mp hc)
    unfold update_charging_status
    rw [hs]
    dsimp only
    rw [if_neg hp]
    refine ⟨rfl, ?_⟩
    unfold get_session_status
    dsimp only
    exact lookup_dict_set_self _ _ _
  · norm_num [tick_fold, update_charging_status, get_session_status, get_user,
      add_points, dict_set, pyInt, W0, baseSession, List.lookup]

/-- Witness for C9: a tick of 2 kWh on the base world accrues 200 points and
advances the checkpoint to 2. -/
theorem C9_update_tick_points_witness :
    get_user (update_charging_status W0 1 2 "active" 11 4).1 5
      = some { id := 5, balance := 100, points := 200 } ∧
    get_session_status (update_charging_status W0 1 2 "active" 11 4).1 1
      = some { baseSession with
               current_kwh := 2, current_power := 11,
               current_cost := 4, charging_status := "active",
               last_points_kwh := some 2 } := by
  obtain ⟨-, hget, hsess⟩ := (C9_update_tick_points W0 1 2 "active" 11 4 baseSession
    { id := 5, balance := 100, points := 0 } rfl rfl).1 (by norm_num [baseSession])
  refine ⟨?_, hsess⟩
  rw [show baseSession.user_id = 5 from rfl] at hget
  rw [hget]
  norm_num [baseSession]

/-! ## C5 -/

/-- Updating a port's status rewrites exactly that port's status field. -/
theorem get_port_update_status (w : World) (pid : Nat) (st : String) :
    get_port (ports_update_status w pid st) pid
      = (get_port w pid).map (fun p => { p with status := st }) := by
  unfold get_port ports_update_status
  dsimp only
  rw [List.find?_map]
  have hcomp : ((fun p => p.id == pid) ∘
      (fun p : Port => if p.id == pid then { p with status := st } else p)) =
      (fun p : Port => p.id == pid) := by
    funext p
    by_cases hp : (p.id == pid) = true <;> simp [Function.comp, hp]
  rw [hcomp]
  cases hf : w.ports.find? (fun p => p.id == pid) with
  | none => rfl
  | some p =>
    have hid := List.find?_some (p := fun x : Port => x.id == pid) hf
    simp only [beq_iff_eq] at hid
    simp [hid]

/-- C5: StartCharging on an owned session whose user's balance is below the
estimated cost (price preview, after any successfully applied discount)
fails with the insufficient-balance outcome and the estimated cost, releases
the port back to Available, and leaves the registry entry untouched, in
particular not transitioned to charging. -/
theorem C5_start_charging_insufficient_balance (w w1 : World) (sid user_id : Nat)
    (target_kwh : ℚ) (car_id : Nat) (discount_code : Option String)
    (sess : ActiveSession) (user : User) (est1 : ℚ)
    (hs : get_session_status w sid = some sess)
    (howner : sess.user_id = user_id)
    (hu : get_user w user_id = some user)
    (hdc : (discount_code = none ∧ w1 = w ∧ est1 = target_kwh * sess.price_per_kwh) ∨
      (∃ code, discount_code = some code ∧
        apply_discount w (target_kwh * sess.price_per_kwh) code
          = Except.ok (w1, est1, DiscountStatus.SUCCESS)))
    (hbal : user.balance < est1) :
    start_charging w sid user_id target_kwh car_id discount_code
      = (ports_update_status w1 sess.port_id "Available", false, est1,
         StartMsg.insufficient_balance) ∧
    (get_port (start_charging w sid user_id target_kwh car_id discount_code).1
        sess.port_id).map (fun p => p.status)
      = (get_port w sess.port_id).map (fun _ => "Available") ∧
    get_session_status (start_charging w sid user_id target_kwh car_id discount_code).1 sid
      = some sess := by
  have hports1 : w1.ports = w.ports := by
    rcases hdc with ⟨-, hw1, -⟩ | ⟨code, -, hok⟩
    · rw [hw1]
    · exact (apply_discount_frame w (target_kwh * sess.price_per_kwh) code w1 est1
        DiscountStatus.SUCCESS hok).2.2.1
  have hact1 : w1.active_sessions = w.active_sessions := by
    rcases hdc with ⟨-, hw1, -⟩ | ⟨code, -, hok⟩
    · rw [hw1]
    · exact (apply_discount_frame w (target_kwh * sess.price_per_kwh) code w1 est1
        DiscountStatus.SUCCESS hok).1
  have hmain : start_charging w sid user_id target_kwh car_id discount_code
      = (ports_update_status w1 sess.port_id "Available", false, est1,
         StartMsg.insufficient_balance) := by
    unfold start_charging
    rw [hs]
    dsimp only
    rw [if_neg (show ¬ sess.user_id ≠ user_id from fun hne => hne howner)]
    rcases hdc with ⟨hdn, hw1, hest⟩ | ⟨code, hdcs, hok⟩
    · subst hdn
      subst hw1
      subst hest
      dsimp only
      unfold start_charging_rest
      rw [hu]
      dsimp only
      rw [if_pos hbal]
    · subst hdcs
      dsimp only
      rw [hok]
      dsimp only
      rw [if_pos rfl]
      unfold start_charging_rest
      rw [hu]
      dsimp only
      rw [if_pos hbal]
  refine ⟨hmain, ?_, ?_⟩
  · rw [hmain]
    dsimp only
    have hpp : get_port (ports_update_status w1 sess.port_id "Available") sess.port_id
        = (get_port w1 sess.port_id).map (fun p => { p with status := "Available" }) :=
      get_port_update_status w1 sess.port_id "Available"
    rw [hpp]
    have : get_port w1 sess.port_id = get_port w sess.port_id := by
      unfold get_port
      rw [hports1]
    rw [this, Option.map_map]
    rfl
  · rw [hmain]
    dsimp only
    show (ports_update_status w1 sess.port_id "Available").active_sessions.lookup sid = _
    have : (ports_update_status w1 sess.port_id "Available").active_sessions
        = w.active_sessions := hact1
    rw [this]
    exact hs

/-- Witness world for C5: the base world with user 5 holding only 5 in
balance. -/
def W5 : World :=
  { W0 with users := [{ id := 5, balance := 5, points := 0 }] }

/-- Witness for C5: starting to charge toward 10 kWh at 2 per kWh with a
balance of 5 fails with the insufficient-balance outcome at estimated cost
20, the port goes back to Available and the session entry is unchanged. -/
theorem C5_start_charging_insufficient_balance_witness :
    start_charging W5 1 5 10 7 none
      = (ports_update_status W5 1 "Available", false, 20,
         StartMsg.insufficient_balance) ∧
    (get_port (start_charging W5 1 5 10 7 none).1 1).map (fun p => p.status)
      = (get_port W5 1).map (fun _ => "Available") ∧
    get_session_status (start_charging W5 1 5 10 7 none).1 1 = some baseSession := by
  have h := C5_start_charging_insufficient_balance W5 W5 1 5 10 7 none baseSession
    { id := 5, balance := 5, points := 0 } 20 rfl rfl rfl
    (Or.inl ⟨rfl, rfl, by norm_num [baseSession]⟩) (by norm_num)
  exact ⟨h.1, h.2.1, h.2.2⟩

/-! ## C6 -/

/-- Session of the C6 worlds: the base session with the discount code XMAS
stored at start_charging time. -/
def discountSession : ActiveSession := { baseSession with discount_code := some "XMAS" }

/-- C6 world whose stored discount carries a (truthy) expiry timestamp, so
applying it raises the TypeError of discountService.py line 188. -/
def W6bad : World :=
  { W0 with
    discounts := [{ id := 1, code := "XMAS", value := 10, expiry_on := some 99,
                    usage_count := 0, max_uses := none }],
    active_sessions := [(1, discountSession)] }

/-- The same world with no expiry on the discount: applying it succeeds. -/
def W6good : World :=
  { W0 with
    discounts := [{ id := 1, code := "XMAS", value := 10, expiry_on := none,
                    usage_count := 0, max_uses := none }],
    active_sessions := [(1, discountSession)] }

/-- Counterexample to C6 as stated: in W6bad the stored discount raises while
being applied, the raise is caught by process_payment and reported as a
payment failure, and the settlement call fails with the session left in the
registry; the identical world with the expiry removed settles fine, so the
discount failure alone blocked the settlement. -/
theorem C6_counterexample :
    (end_charging_session W6bad {} 1 5 10 none none).2 = false ∧
    get_session_status (end_charging_session W6bad {} 1 5 10 none none).1 1
      = some discountSession ∧
    (end_charging_session W6good {} 1 5 10 none none).2 = true := by
  refine ⟨?_, ?_, ?_⟩ <;>
    simp +decide [end_charging_session, process_payment, apply_discount, resolve_dc,
      get_session_status, get_port, get_station, get_session_row, end_session,
      create_transaction, update_balance, ports_update_status, bump_usage,
      find_discount, dict_set, next_id, W6bad, W6good, W0, discountSession,
      baseSession, List.lookup]

/-- C6 (amended): a discount failure reported as a status lets the payment
proceed with the undiscounted final cost, but an exception raised while
applying the discount (which happens for every discount with a truthy expiry
timestamp) makes the payment step fail and with it the whole settlement
call. -/
theorem C6_discount_failure_payment (w : World) (f : Faults) (sid cid : Nat)
    (e fc : ℚ) (code : String) (reason : Option String) (sess : ActiveSession)
    (hs : get_session_status w sid = some sess)
    (hcid : sess.car_id = some cid)
    (htx : f.tx_fail = false) (hbal : f.balance_fail = false) :
    (∀ w1 amt st, apply_discount w fc code = Except.ok (w1, amt, st) →
      st ≠ DiscountStatus.SUCCESS →
      process_payment w f sid fc (some code)
        = (update_balance
            (create_transaction w1 sess.user_id (some sess.station_id) (some cid)
              (-fc) "Payment") sess.user_id (-fc), fc, true)) ∧
    (apply_discount w fc code = Except.error () →
      process_payment w f sid fc (some code) = (w, fc, false) ∧
      (end_charging_session w f sid e fc reason (some code)).2 = false) := by
  constructor
  · intro w1 amt st hok hstne
    unfold process_payment
    rw [hs]
    dsimp only
    rw [hok]
    dsimp only
    rw [if_neg hstne]
    dsimp only
    rw [hcid]
    dsimp only
    rw [if_neg (by rw [htx]; exact Bool.false_ne_true)]
    rw [if_neg (by rw [hbal]; exact Bool.false_ne_true)]
  · intro herr
    have hpp : process_payment w f sid fc (some code) = (w, fc, false) := by
      unfold process_payment
      rw [hs]
      dsimp only
      rw [herr]
    refine ⟨hpp, ?_⟩
    unfold end_charging_session
    rw [hs]
    dsimp only
    rw [hcid]
    dsimp only
    have hdc : resolve_dc (some code) sess = some code := rfl
    rw [hdc, hpp]

/-- Witness for the amended C6: in the base world an unknown code NOPE keeps
the payment alive with the undiscounted 10, while in W6bad the raising XMAS
discount makes the settlement call fail. -/
theorem C6_discount_failure_payment_witness :
    process_payment W0 {} 1 10 (some "NOPE")
      = (update_balance
          (create_transaction W0 5 (some 1) (some 7) (-10) "Payment") 5 (-10), 10, true) ∧
    (end_charging_session W6bad {} 1 5 10 none (some "XMAS")).2 = false := by
  constructor
  · exact (C6_discount_failure_payment W0 {} 1 7 5 10 "NOPE" none baseSession
      rfl rfl rfl rfl).1 W0 10 DiscountStatus.NOT_FOUND
      (by simp +decide [apply_discount, W0]) (by simp)
  · exact ((C6_discount_failure_payment W6bad {} 1 7 5 10 "XMAS" none discountSession
      rfl rfl rfl rfl).2
      (by simp +decide [apply_discount, W6bad, discountSession, baseSession, W0])).2

/-! ## C8 -/

/-- Whenever the availability check passes and no exception interrupts the
tick, the energy accumulated by one loop iteration is the fixed 1 kWh,
independent of everything the meter endpoint returned. -/
theorem loopStep_kwh_fixed (w : World) (f : Faults) (env : TickEnv) (sid : Nat)
    (price target capacity : ℚ) (ls : LoopState)
    (hrf : env.raise_fault = false)
    (hav : (check_charging_availability w sid).1 = true) :
    (loopStep w f env sid price target capacity ls).2.1.current_kwh
      = ls.current_kwh + 1 := by
  unfold loopStep
  rw [if_neg (by rw [hrf]; exact Bool.false_ne_true)]
  rcases hca : check_charging_availability w sid with ⟨can, rr⟩
  rw [hca] at hav
  dsimp only at hav
  subst hav
  dsimp only
  cases hre : end_reason_of (min 100 ((ls.current_kwh + 1) / capacity * 100))
      (ls.current_kwh + 1) capacity target
  · rfl
  · rfl

/-- C8: the telemetry tick does not accumulate the fetched meter value.  A
tick whose fetch succeeded behaves identically to a tick whose fetch failed
(the reply is only printed; charging.py line 189 then assigns the fixed
energy_delta = 1 unconditionally), and on the base world a successful fetch
of 0.5 kWh still accumulates exactly 1 kWh. -/
theorem C8_meter_value_discarded :
    (∀ (w : World) (f : Faults) (sid : Nat) (price target capacity : ℚ)
       (ls : LoopState) (m : ℚ),
      loopStep w f { connected := true, meter := some m } sid price target capacity ls
        = loopStep w f { connected := true, meter := none } sid price target capacity ls) ∧
    (loopStep W0 {} { connected := true, meter := some (1 / 2) } 1 2 10 50
        { current_kwh := 0, current_cost := 0, charging_power := 11,
          battery_temp := 25, status := "active" }).2.1.current_kwh = 0 + 1 := by
  refine ⟨fun w f sid price target capacity ls m => rfl, ?_⟩
  exact loopStep_kwh_fixed W0 {} _ 1 2 10 50 _ rfl
    (by simp +decide [check_charging_availability, get_session_status, get_port,
      get_station, W0, baseSession, List.lookup])

/-! ## C2 -/

instance port_mutex_invariant_decidable (w : World) :
    Decidable (port_mutex_invariant w) := by
  unfold port_mutex_invariant
  infer_instance

/-- C2: the base world satisfies the port-exclusivity invariant, yet one
Initialize call on the already occupied port 1 succeeds (neither
initialize_charging nor the scan endpoint checks the port status: the guard
in station.py lines 84-87 is commented out) and leaves two unsettled rows and
two registry sessions referencing port 1, violating the invariant. -/
theorem C2_port_mutex_violation :
    port_mutex_invariant W0 ∧
    (initialize_charging W0 {} 9 1).2.isSome = true ∧
    ((initialize_charging W0 {} 9 1).1.session_rows.filter
        (fun r => r.port_id == 1 && r.end_on.isNone)).length = 2 ∧
    ((initialize_charging W0 {} 9 1).1.active_sessions.filter
        (fun kv => kv.2.port_id == 1)).length = 2 ∧
    ¬ port_mutex_invariant (initialize_charging W0 {} 9 1).1 := by
  decide

/-! ## C7 -/

/-- C7: when a tick passes the availability check and the termination test
fires, the decided reason follows the code's priority order (battery level
first, then battery capacity, then target, a lower test firing only when the
higher ones failed), the tick marks the session done through UpdateTick, runs
the settlement with exactly that reason, ends its messages with
charging_completed, exits as completed, and the loop processes no further
iterations. -/
theorem C7_termination_priority (w : World) (f : Faults) (sid : Nat)
    (price target capacity kwh1 level : ℚ) (ls : LoopState) (env : TickEnv) (r : String)
    (hconn : env.connected = true) (hrf : env.raise_fault = false)
    (hav : (check_charging_availability w sid).1 = true)
    (hkwh : kwh1 = ls.current_kwh + 1)
    (hlev : level = min 100 (kwh1 / capacity * 100))
    (hr : end_reason_of level kwh1 capacity target = some r) :
    (r = if level ≥ 100 then "battery_full"
         else if kwh1 ≥ capacity then "capacity_reached"
         else "target_reached") ∧
    (¬ level ≥ 100 → ¬ kwh1 ≥ capacity → kwh1 ≥ target - 1 / 100) ∧
    (∃ power1 cost1,
      loopStep w f env sid price target capacity ls
        = ((end_charging_session
              (update_charging_status
                (update_charging_status w sid kwh1 "active" power1 cost1).1
                sid kwh1 "done" power1 cost1).1
              f sid kwh1 cost1 (some r) none).1,
           { current_kwh := kwh1, current_cost := cost1,
             charging_power := power1, battery_temp := ls.battery_temp + 1 / 10,
             status := "done" },
           [Event.charging_update kwh1 power1 level (ls.battery_temp + 1 / 10) cost1,
            Event.charging_completed kwh1 cost1 r], some ExitKind.completed)) ∧
    (∀ rest, runLoop w f (env :: rest) sid price target capacity ls
        = ((loopStep w f env sid price target capacity ls).1,
           (loopStep w f env sid price target capacity ls).2.1,
           (loopStep w f env sid price target capacity ls).2.2.1,
           ExitKind.completed)) := by
  subst hkwh
  subst hlev
  have heq : loopStep w f env sid price target capacity ls
      = ((end_charging_session
            (update_charging_status
              (update_charging_status w sid (ls.current_kwh + 1) "active"
                (if ls.battery_temp + 1 / 10 > 40 then ls.charging_power * (9 / 10)
                 else ls.charging_power)
                (ls.current_cost + 1 * price)).1
              sid (ls.current_kwh + 1) "done"
              (if ls.battery_temp + 1 / 10 > 40 then ls.charging_power * (9 / 10)
               else ls.charging_power)
              (ls.current_cost + 1 * price)).1
            f sid (ls.current_kwh + 1) (ls.current_cost + 1 * price) (some r) none).1,
         { current_kwh := ls.current_kwh + 1, current_cost := ls.current_cost + 1 * price,
           charging_power := (if ls.battery_temp + 1 / 10 > 40 then ls.charging_power * (9 / 10)
             else ls.charging_power),
           battery_temp := ls.battery_temp + 1 / 10, status := "done" },
         [Event.charging_update (ls.current_kwh + 1)
            (if ls.battery_temp + 1 / 10 > 40 then ls.charging_power * (9 / 10)
             else ls.charging_power)
            (min 100 ((ls.current_kwh + 1) / capacity * 100)) (ls.battery_temp + 1 / 10)
            (ls.current_cost + 1 * price),
          Event.charging_completed (ls.current_kwh + 1) (ls.current_cost + 1 * price) r],
         some ExitKind.completed) := by
    unfold loopStep
    rw [if_neg (by rw [hrf]; exact Bool.false_ne_true)]
    rcases hca : check_charging_availability w sid with ⟨can, rr⟩
    rw [hca] at hav
    dsimp only at hav
    subst hav
    dsimp only
    rw [hr]
  refine ⟨?_, ?_, ?_, ?_⟩
  · unfold end_reason_of at hr
    split at hr
    next hc1 =>
      rw [if_pos hc1]
      exact (Option.some.inj hr).symm
    next hc1 =>
      split at hr
      next hc2 =>
        rw [if_neg hc1, if_pos hc2]
        exact (Option.some.inj hr).symm
      next hc2 =>
        split at hr
        next hc3 =>
          rw [if_neg hc1, if_neg hc2]
          exact (Option.some.inj hr).symm
        next hc3 => exact absurd hr (by simp)
  · intro hn1 hn2
    unfold end_reason_of at hr
    rw [if_neg hn1, if_neg hn2] at hr
    by_cases hc3 : ls.current_kwh + 1 ≥ target - 1 / 100
    · exact hc3
    · rw [if_neg hc3] at hr
      exact absurd hr (by simp)
  · exact ⟨_, _, heq⟩
  · intro rest
    unfold runLoop
    rw [if_pos hconn, heq]

/-- Witness for C7: on the base world a tick from 9 kWh reaches the 10 kWh
target (level 20, capacity 50), the decided reason is target_reached by the
priority order, and the loop exits completed on that iteration. -/
theorem C7_termination_priority_witness :
    (runLoop W0 {} [{ connected := true, meter := none }] 1 2 10 50
        { current_kwh := 9, current_cost := 18, charging_power := 11,
          battery_temp := 25, status := "active" }).2.2.2 = ExitKind.completed ∧
    "target_reached" = (if (min 100 ((10 : ℚ) / 50 * 100)) ≥ 100 then "battery_full"
       else if (10 : ℚ) ≥ 50 then "capacity_reached" else "target_reached") := by
  have h := C7_termination_priority W0 {} 1 2 10 50 10 (min 100 ((10 : ℚ) / 50 * 100))
    { current_kwh := 9, current_cost := 18, charging_power := 11,
      battery_temp := 25, status := "active" }
    { connected := true, meter := none } "target_reached"
    rfl rfl
    (by simp +decide [check_charging_availability, get_session_status, get_port,
      get_station, W0, baseSession, List.lookup])
    (by norm_num) rfl
    (by norm_num [end_reason_of, min_def])
  refine ⟨?_, h.1⟩
  rw [h.2.2.2 []]

/-! ## C1 -/

/-- Eta expansion of a state-result triple whose flag is known true. -/
theorem triple_eta_true {p : World × ℚ × Bool} (h : p.2.2 = true) :
    p = (p.1, p.2.1, true) := by
  obtain ⟨a, b, c⟩ := p
  dsimp only at h
  subst h
  rfl

/-- Removing a key from the registry dict makes its lookup fail. -/
theorem lookup_filter_ne (l : List (Nat × ActiveSession)) (sid : Nat) :
    (l.filter (fun kv => kv.1 != sid)).lookup sid = none := by
  induction l with
  | nil => rfl
  | cons a l ih =>
    by_cases ha : (a.1 == sid) = true
    · have hbn : (a.1 != sid) = false := by simp [bne, ha]
      rw [List.filter_cons, hbn]
      simpa using ih
    · have hbn : (a.1 != sid) = true := by simp [bne, Bool.not_eq_true, ha]
      rw [List.filter_cons, hbn]
      have ha' : (sid == a.1) = false := by
        have : a.1 ≠ sid := by simpa using ha
        exact beq_eq_false_iff_ne.mpr (fun he => this he.symm)
      simp only [if_pos rfl, List.lookup, ha']
      exact ih

/-- When the session is registered with a car attached, no fault is injected
into the ledger, and the applicable discount code cannot raise, the payment
step succeeds. -/
theorem process_payment_success (w : World) (f : Faults) (sid cid : Nat) (fc : ℚ)
    (dc : Option String) (sess : ActiveSession)
    (hs : get_session_status w sid = some sess)
    (hcid : sess.car_id = some cid)
    (hdr : discount_no_raise w dc = true)
    (htx : f.tx_fail = false) (hbal : f.balance_fail = false) :
    (process_payment w f sid fc dc).2.2 = true := by
  unfold process_payment
  rw [hs]
  dsimp only
  cases dc with
  | none =>
    dsimp only
    rw [hcid]
    dsimp only
    rw [if_neg (by rw [htx]; exact Bool.false_ne_true)]
    rw [if_neg (by rw [hbal]; exact Bool.false_ne_true)]
  | some code =>
    dsimp only
    cases hok : apply_discount w fc code with
    | error eu =>
      exfalso
      unfold discount_no_raise at hdr
      dsimp only at hdr
      unfold apply_discount at hok
      cases hfd : find_discount w code with
      | none =>
        unfold find_discount at hfd
        rw [hfd] at hok
        exact absurd hok (by simp)
      | some d =>
        rw [hfd] at hdr
        dsimp only at hdr
        unfold find_discount at hfd
        rw [hfd] at hok
        dsimp only at hok
        by_cases hex : d.expiry_on.getD 0 ≠ 0
        · simp only [beq_iff_eq] at hdr
          exact hex hdr
        · rw [if_neg hex] at hok
          cases hmu : d.max_uses with
          | some m =>
            rw [hmu] at hok
            dsimp only at hok
            revert hok
            split <;> simp
          | none =>
            rw [hmu] at hok
            exact absurd hok (by simp)
    | ok res =>
      obtain ⟨wd, amt, st⟩ := res
      dsimp only
      by_cases hst : st = DiscountStatus.SUCCESS
      · rw [if_pos hst]
        dsimp only
        rw [hcid]
        dsimp only
        rw [if_neg (by rw [htx]; exact Bool.false_ne_true)]
        rw [if_neg (by rw [hbal]; exact Bool.false_ne_true)]
      · rw [if_neg hst]
        dsimp only
        rw [hcid]
        dsimp only
        rw [if_neg (by rw [htx]; exact Bool.false_ne_true)]
        rw [if_neg (by rw [hbal]; exact Bool.false_ne_true)]

/-- UpdateTick keeps everything except the registry entry and the users
table; the refreshed registry entry keeps its identity fields and takes the
passed status. -/
theorem update_charging_status_effects (w : World) (sid : Nat) (kwh : ℚ)
    (status : String) (power cost : ℚ) (sess : ActiveSession)
    (hs : get_session_status w sid = some sess) :
    ∃ sessU : ActiveSession,
      get_session_status (update_charging_status w sid kwh status power cost).1 sid
        = some sessU ∧
      sessU.car_id = sess.car_id ∧
      sessU.discount_code = sess.discount_code ∧
      sessU.port_id = sess.port_id ∧
      sessU.station_id = sess.station_id ∧
      sessU.charging_status = status ∧
      (update_charging_status w sid kwh status power cost).1.session_rows = w.session_rows ∧
      (update_charging_status w sid kwh status power cost).1.ports = w.ports ∧
      (update_charging_status w sid kwh status power cost).1.stations = w.stations ∧
      (update_charging_status w sid kwh status power cost).1.discounts = w.discounts ∧
      (update_charging_status w sid kwh status power cost).1.settlements = w.settlements := by
  unfold update_charging_status
  rw [hs]
  dsimp only
  by_cases hp : 0 < pyInt ((kwh - sess.last_points_kwh.getD 0) * 100)
  · rw [if_pos hp]
    refine ⟨{ sess with
        current_kwh := kwh, current_power := power, current_cost := cost,
        charging_status := status, last_points_kwh := some kwh },
      ?_, rfl, rfl, rfl, rfl, rfl, rfl, rfl, rfl, rfl, rfl⟩
    unfold get_session_status add_points
    dsimp only
    exact lookup_dict_set_self _ _ _
  · rw [if_neg hp]
    refine ⟨{ sess with
        current_kwh := kwh, current_power := power, current_cost := cost,
        charging_status := status },
      ?_, rfl, rfl, rfl, rfl, rfl, rfl, rfl, rfl, rfl, rfl⟩
    unfold get_session_status
    dsimp only
    exact lookup_dict_set_self _ _ _

/-- discount_no_raise only reads the discounts table. -/
theorem discount_no_raise_congr (w w' : World) (dc : Option String)
    (h : w'.discounts = w.discounts) :
    discount_no_raise w' dc = discount_no_raise w dc := by
  cases dc with
  | none => rfl
  | some code =>
    unfold discount_no_raise find_discount
    rw [h]

/-- Rewriting one port's status in the table commutes with looking that port
up. -/
theorem find?_map_port_status (ports : List Port) (pid : Nat) (st : String) :
    (ports.map (fun q => if q.id == pid then { q with status := st } else q)).find?
        (fun q => q.id == pid)
      = (ports.find? (fun q => q.id == pid)).map (fun p => { p with status := st }) := by
  rw [List.find?_map]
  have hcomp : ((fun q => q.id == pid) ∘
      (fun q : Port => if q.id == pid then { q with status := st } else q)) =
      (fun q : Port => q.id == pid) := by
    funext q
    by_cases hq : (q.id == pid) = true <;> simp [Function.comp, hq]
  rw [hcomp]
  cases hf : ports.find? (fun q => q.id == pid) with
  | none => rfl
  | some p =>
    have hid := List.find?_some (p := fun x : Port => x.id == pid) hf
    simp only [beq_iff_eq] at hid
    simp [hid]

/-- Clean settlement path: with the session registered, a car attached, a
non-raising discount code, no injected fault and the session row present,
end_charging_session succeeds, removes the session from the registry, logs
exactly one settlement carrying the resolved reason, and releases the
session row's port to Available when that port exists. -/
theorem end_charging_session_clean (w : World) (f : Faults) (sid cid : Nat)
    (e c : ℚ) (r : Option String) (sess : ActiveSession) (row : SessionRow)
    (hs : get_session_status w sid = some sess)
    (hcid : sess.car_id = some cid)
    (hdr : discount_no_raise w sess.discount_code = true)
    (htx : f.tx_fail = false) (hbal : f.balance_fail = false) (hend : f.end_fail = false)
    (hrow : get_session_row w sid = some row) :
    (end_charging_session w f sid e c r none).2 = true ∧
    get_session_status (end_charging_session w f sid e c r none).1 sid = none ∧
    (end_charging_session w f sid e c r none).1.settlements
      = (sid, resolved_reason w sess r) :: w.settlements ∧
    ((get_port w row.port_id).isSome = true →
      (get_port (end_charging_session w f sid e c r none).1 row.port_id).map
          (fun p => p.status) = some "Available") := by
  have hframe := process_payment_frame w f sid c (resolve_dc none sess)
  have hys : (process_payment w f sid c (resolve_dc none sess)).2.2 = true :=
    process_payment_success w f sid cid c (resolve_dc none sess) sess hs hcid hdr htx hbal
  have hpp := triple_eta_true hys
  have hrow1 : get_session_row (process_payment w f sid c (resolve_dc none sess)).1 sid
      = some row := by
    unfold get_session_row at hrow ⊢
    rw [hframe.2.1]
    exact hrow
  refine ⟨?_, ?_, ?_, ?_⟩
  · unfold end_charging_session
    rw [hs]
    dsimp only
    rw [hcid]
    dsimp only
    rw [hpp]
    dsimp only
    unfold end_session
    rw [if_neg (by rw [hend]; exact Bool.false_ne_true)]
    rw [hrow1]
  · unfold end_charging_session
    rw [hs]
    dsimp only
    rw [hcid]
    dsimp only
    rw [hpp]
    dsimp only
    unfold end_session
    rw [if_neg (by rw [hend]; exact Bool.false_ne_true)]
    rw [hrow1]
    dsimp only
    unfold get_session_status
    dsimp only
    exact lookup_filter_ne _ _
  · unfold end_charging_session
    rw [hs]
    dsimp only
    rw [hcid]
    dsimp only
    rw [hpp]
    dsimp only
    unfold end_session
    rw [if_neg (by rw [hend]; exact Bool.false_ne_true)]
    rw [hrow1]
    dsimp only
    unfold get_port
    dsimp only
    rw [hframe.2.2.1]
    cases hpw : w.ports.find? (fun p => p.id == row.port_id) with
    | none =>
      dsimp only
      rw [hframe.2.2.2]
    | some p =>
      unfold ports_update_status
      dsimp only
      rw [hframe.2.2.2]
  · intro hport
    unfold end_charging_session
    rw [hs]
    dsimp only
    rw [hcid]
    dsimp only
    rw [hpp]
    dsimp only
    unfold end_session
    rw [if_neg (by rw [hend]; exact Bool.false_ne_true)]
    rw [hrow1]
    dsimp only
    unfold get_port
    dsimp only
    rw [hframe.2.2.1]
    cases hpw : w.ports.find? (fun p => p.id == row.port_id) with
    | none =>
      unfold get_port at hport
      rw [hpw] at hport
      exact absurd hport (by simp)
    | some p =>
      have hid := List.find?_some (p := fun x : Port => x.id == row.port_id) hpw
      simp only [beq_iff_eq] at hid
      unfold ports_update_status
      dsimp only
      rw [hid]
      rw [find?_map_port_status, hpw]
      rfl

/-- C1: (i) a session absent from the registry (as every successfully
settled session is) makes the cleanup a no-op, so a settled session is never
settled twice; (ii) every successful settlement removes its session from the
registry, after which the cleanup does nothing; (iii) a session still in the
registry with a live status is settled by the cleanup exactly once, with
reason connection_lost as the only new ledger entry, the session removed and
the port released to Available (under a clean store: no injected fault, a car
attached, a non-raising discount, the row and port present); (iv) every
handler execution, whatever way the loop exits, runs the cleanup on the
post-loop state. -/
theorem C1_cleanup_settles_once :
    (∀ (w : World) (f : Faults) (sid : Nat) (ls : LoopState),
      get_session_status w sid = none → cleanup w f sid ls = (w, false)) ∧
    (∀ (w : World) (f : Faults) (sid : Nat) (e c : ℚ) (r dc : Option String) (w' : World),
      end_charging_session w f sid e c r dc = (w', true) →
      get_session_status w' sid = none ∧ ∀ ls, cleanup w' f sid ls = (w', false)) ∧
    (∀ (w : World) (f : Faults) (sid cid : Nat) (ls : LoopState)
       (sess : ActiveSession) (row : SessionRow),
      get_session_status w sid = some sess →
      sess.charging_status ≠ "stopped" → sess.charging_status ≠ "completed" →
      sess.car_id = some cid →
      discount_no_raise w sess.discount_code = true →
      f.tx_fail = false → f.balance_fail = false → f.end_fail = false →
      get_session_row w sid = some row →
      (cleanup w f sid ls).2 = true ∧
      get_session_status (cleanup w f sid ls).1 sid = none ∧
      (cleanup w f sid ls).1.settlements
        = (sid, some "connection_lost") :: w.settlements ∧
      ((get_port w row.port_id).isSome = true →
        (get_port (cleanup w f sid ls).1 row.port_id).map (fun p => p.status)
          = some "Available")) ∧
    (∀ (w : World) (f : Faults) (envs : List TickEnv) (sid uid cid : Nat)
       (sess : ActiveSession) (car : Car) (target : ℚ),
      get_session_status w sid = some sess →
      sess.user_id = uid →
      sess.car_id = some cid →
      get_car w cid = some car →
      sess.target_kwh = some target →
      charging_socket_run w f envs sid uid
        = ((cleanup
              (runLoop w f envs sid sess.price_per_kwh target car.battery_capacity
                { current_kwh := 0, current_cost := 0,
                  charging_power := min sess.max_power car.max_charging_power,
                  battery_temp := 25, status := "active" }).1
              f sid
              (runLoop w f envs sid sess.price_per_kwh target car.battery_capacity
                { current_kwh := 0, current_cost := 0,
                  charging_power := min sess.max_power car.max_charging_power,
                  battery_temp := 25, status := "active" }).2.1).1,
           Event.charging_started (min sess.max_power car.max_charging_power) target
               sess.price_per_kwh car.battery_capacity
             :: (runLoop w f envs sid sess.price_per_kwh target car.battery_capacity
                  { current_kwh := 0, current_cost := 0,
                    charging_power := min sess.max_power car.max_charging_power,
                    battery_temp := 25, status := "active" }).2.2.1)) := by
  have habsent : ∀ (w : World) (f : Faults) (sid : Nat) (ls : LoopState),
      get_session_status w sid = none → cleanup w f sid ls = (w, false) := by
    intro w f sid ls h
    unfold cleanup
    rw [h]
  refine ⟨habsent, ?_, ?_, ?_⟩
  · intro w f sid e c r dc w' h
    have hrem : get_session_status w' sid = none := by
      unfold end_charging_session at h
      split at h
      next => exact absurd (congrArg Prod.snd h) (by simp)
      next sess hsess =>
        dsimp only at h
        split at h
        next => exact absurd (congrArg Prod.snd h) (by simp)
        next cid hcid2 =>
          split at h
          next => exact absurd (congrArg Prod.snd h) (by simp)
          next w1 fc1 hm =>
            split at h
            next => exact absurd (congrArg Prod.snd h) (by simp)
            next w2 row hes =>
              have hw' := congrArg Prod.fst h
              dsimp only at hw'
              rw [← hw']
              unfold get_session_status
              dsimp only
              exact lookup_filter_ne _ _
    exact ⟨hrem, fun ls => habsent w' f sid ls hrem⟩
  · intro w f sid cid ls sess row hs hst1 hst2 hcid hdr htx hbal hend hrow
    obtain ⟨sessU, hsU, hcarU, hdcU, hportU, hstationU, hstatusU, hrowsU, hportsU,
      hstationsU, hdiscU, hsetU⟩ :=
      update_charging_status_effects w sid ls.current_kwh "interrupted"
        ls.charging_power ls.current_cost sess hs
    have hcid2 : sessU.car_id = some cid := by rw [hcarU]; exact hcid
    have hdr2 : discount_no_raise
        (update_charging_status w sid ls.current_kwh "interrupted"
          ls.charging_power ls.current_cost).1 sessU.discount_code = true := by
      rw [hdcU, discount_no_raise_congr w _ _ hdiscU]
      exact hdr
    have hrow2 : get_session_row
        (update_charging_status w sid ls.current_kwh "interrupted"
          ls.charging_power ls.current_cost).1 sid = some row := by
      unfold get_session_row
      rw [hrowsU]
      exact hrow
    have hclean := end_charging_session_clean
      (update_charging_status w sid ls.current_kwh "interrupted"
        ls.charging_power ls.current_cost).1
      f sid cid ls.current_kwh ls.current_cost (some "connection_lost") sessU row
      hsU hcid2 hdr2 htx hbal hend hrow2
    have hcu : cleanup w f sid ls
        = ((end_charging_session
            (update_charging_status w sid ls.current_kwh "interrupted"
              ls.charging_power ls.current_cost).1
            f sid ls.current_kwh ls.current_cost (some "connection_lost") none).1,
           true) := by
      unfold cleanup
      rw [hs]
      dsimp only
      rw [if_neg (by rintro (hc | hc) <;> [exact hst1 hc; exact hst2 hc])]
    refine ⟨by rw [hcu], ?_, ?_, ?_⟩
    · rw [hcu]
      exact hclean.2.1
    · rw [hcu]
      dsimp only
      rw [hclean.2.2.1, hsetU]
      rfl
    · intro hport
      rw [hcu]
      dsimp only
      refine hclean.2.2.2 ?_
      unfold get_port
      rw [hportsU]
      exact hport
  · intro w f envs sid uid cid sess car target hs howner hcid hcar htarget
    unfold charging_socket_run
    rw [hs]
    dsimp only
    rw [if_neg (fun hne => hne howner)]
    rw [hcid]
    dsimp only
    rw [hcar]
    dsimp only
    rw [htarget]

/-- Loop state used by the C1 witness. -/
def ls10 : LoopState :=
  { current_kwh := 5, current_cost := 10, charging_power := 11,
    battery_temp := 25, status := "active" }

/-- Witness for C1: on the empty-registry world the cleanup is a no-op, and
on the base world the cleanup settles session 1 exactly once with reason
connection_lost, removes it from the registry and releases port 1. -/
theorem C1_cleanup_settles_once_witness :
    cleanup W4 {} 1 ls10 = (W4, false) ∧
    (cleanup W0 {} 1 ls10).2 = true ∧
    get_session_status (cleanup W0 {} 1 ls10).1 1 = none ∧
    (cleanup W0 {} 1 ls10).1.settlements = [(1, some "connection_lost")] ∧
    (get_port (cleanup W0 {} 1 ls10).1 1).map (fun p => p.status) = some "Available" := by
  have h := C1_cleanup_settles_once
  have h3 := h.2.2.1 W0 {} 1 7 ls10 baseSession
    { id := 1, user_id := 5, port_id := 1, car_id := some 7, started_on := 0,
      end_on := none, energy_consumed := none, power_limit := some 11, cost := none }
    rfl (by decide) (by decide) rfl rfl rfl rfl rfl rfl
  exact ⟨h.1 W4 {} 1 ls10 rfl, h3.1, h3.2.1, h3.2.2.1, h3.2.2.2 rfl⟩

end IdeaAmp
